import Mathlib

/-!
Shallow embedding of the HTTP-service layer of the `streamlit_hello_app`
repository: `utils.validate_tmdb_api_key`, `modules/tmdb_service.TmdbService`
and `modules/openai_service.OpenAIService`, together with theorems settling
the specification claims about them.

Python values flowing through the JSON dictionaries are modelled by `Json`;
Python exceptions by `PyExc` (raising code returns `Except PyExc _`); the
`requests` transport by a `Transport` holding the scripted outcomes of the
successive HTTP requests, a call counter and the log of sent parameter /
payload dictionaries.  Floats are modelled as rationals (no rounding is
exercised by any claim).
-/

/-- Model of a Python / JSON value. -/
inductive Json where
  | null : Json
  | bool : Bool → Json
  | num : Rat → Json
  | str : String → Json
  | arr : List Json → Json
  | obj : List (String × Json) → Json
  deriving Repr

/-- Python truthiness of a `Json` value (`bool(x)`). -/
def Json.toBool : Json → Bool
  | .null => false
  | .bool b => b
  | .num q => !(q == 0)
  | .str s => !(s == "")
  | .arr xs => !xs.isEmpty
  | .obj fs => !fs.isEmpty

/-- Code-point-level worker for Python `s.split(sep)` with a one-character
separator; the result list is never empty. -/
def splitCharsOn (sep : Char) : List Char → List (List Char)
  | [] => [[]]
  | c :: cs =>
    match splitCharsOn sep cs with
    | [] => [[]]
    | g :: gs => if c == sep then [] :: g :: gs else (c :: g) :: gs

/-- Python `s.split(sep)` for a one-character separator, implemented by
structural recursion over the code points (same semantics as
`String.splitOn`: `"".split` gives `[""]`, empty segments are kept). -/
def pySplit (s : String) (sep : Char) : List String :=
  (splitCharsOn sep s.data).map String.mk

/-- Python `s[:n]`: the first `n` code points. -/
def pyTake (s : String) (n : Nat) : String := .mk (s.data.take n)

/-- Python `s.strip()`: leading and trailing whitespace removed. -/
def pyStrip (s : String) : String :=
  .mk (((s.data.dropWhile Char.isWhitespace).reverse.dropWhile Char.isWhitespace).reverse)

/-- Python `s.lower()`. -/
def pyLower (s : String) : String := .mk (s.data.map Char.toLower)

/-- Whether `pat` occurs as a contiguous run inside the code points of `s`
(Python `pat in s`). -/
def listInfix (pat : List Char) : List Char → Bool
  | [] => pat.isEmpty
  | c :: cs => pat.isPrefixOf (c :: cs) || listInfix pat cs

/-- Python exceptions that the embedded code can raise.  `jsonDecodeError`
models `requests.exceptions.JSONDecodeError`, which is a subclass of both
`ValueError` and `RequestException` (requests >= 2.27). -/
inductive PyExc where
  | connectionError : String → PyExc
  | timeout : String → PyExc
  | requestException : String → PyExc
  | jsonDecodeError : String → PyExc
  | valueError : String → PyExc
  | typeError : String → PyExc
  | keyError : String → PyExc
  | indexError : String → PyExc
  | attributeError : String → PyExc
  deriving Repr, DecidableEq

/-- `str(e)` of an exception: its message text. -/
def PyExc.text : PyExc → String
  | .connectionError m => m
  | .timeout m => m
  | .requestException m => m
  | .jsonDecodeError m => m
  | .valueError m => m
  | .typeError m => m
  | .keyError m => m
  | .indexError m => m
  | .attributeError m => m

/-- Membership in `(ConnectionError, Timeout)`. -/
def PyExc.isConnectionErrorOrTimeout : PyExc → Bool
  | .connectionError _ => true
  | .timeout _ => true
  | _ => false

/-- Membership in `RequestException`: `ConnectionError` and `Timeout` are its
subclasses, and so is `JSONDecodeError`. -/
def PyExc.isRequestException : PyExc → Bool
  | .connectionError _ => true
  | .timeout _ => true
  | .requestException _ => true
  | .jsonDecodeError _ => true
  | _ => false

/-- Membership in `ValueError`: `JSONDecodeError` is a subclass. -/
def PyExc.isValueError : PyExc → Bool
  | .valueError _ => true
  | .jsonDecodeError _ => true
  | _ => false

/-- Membership in `Exception`: every modelled exception derives from it. -/
def PyExc.isException : PyExc → Bool
  | .connectionError _ => true
  | .timeout _ => true
  | .requestException _ => true
  | .jsonDecodeError _ => true
  | .valueError _ => true
  | .typeError _ => true
  | .keyError _ => true
  | .indexError _ => true
  | .attributeError _ => true

/-- `d.get(k, default)` on a Python value: total on dicts, raises
`AttributeError` on anything else. -/
def Json.get (j : Json) (k : String) (d : Json) : Except PyExc Json :=
  match j with
  | .obj fs => .ok ((fs.lookup k).getD d)
  | _ => .error (.attributeError ("object has no attribute get: " ++ k))

/-- `d[k]` subscription with a string key. -/
def Json.item (j : Json) (k : String) : Except PyExc Json :=
  match j with
  | .obj fs =>
    match fs.lookup k with
    | some v => .ok v
    | none => .error (.keyError k)
  | _ => .error (.typeError "object is not subscriptable")

/-- `x[0]` subscription with index 0 (used on the `choices` value). -/
def Json.at0 (j : Json) : Except PyExc Json :=
  match j with
  | .arr [] => .error (.indexError "list index out of range")
  | .arr (x :: _) => .ok x
  | .obj _ => .error (.keyError "0")
  | _ => .error (.typeError "object is not subscriptable")

/-- `len(x)` (raises `TypeError` on values without a length). -/
def pyLen : Json → Except PyExc Nat
  | .str s => .ok s.length
  | .arr xs => .ok xs.length
  | .obj fs => .ok fs.length
  | _ => .error (.typeError "object has no len")

/-- Rendering of a value inside an f-string (`str(x)`).  Strings render as
themselves, which is the only case any claim exercises; for the remaining
constructors the rendering is an abstraction of CPython's. -/
def Json.pyStr : Json → String
  | .str s => s
  | .null => "None"
  | .bool b => if b then "True" else "False"
  | .num q => toString q
  | .arr _ => "<arr>"
  | .obj _ => "<obj>"

/-- Whether a value is a JSON object (a Python dict). -/
def Json.isObj : Json → Bool
  | .obj _ => true
  | _ => false

/-- Python truthiness of an `Optional[str]` argument (`None` and the empty
string are falsy). -/
def pyTruthyStr : Option String → Bool
  | none => false
  | some s => !(s == "")

/-- Python truthiness of an `Optional[int]` argument (`None` and `0` are
falsy). -/
def pyTruthyInt : Option Int → Bool
  | none => false
  | some n => !(n == 0)

/-- Whether the Python string `pat` occurs as a substring of `s`
(`pat in s`). -/
def strContains (s pat : String) : Bool := listInfix pat.data s.data

/-- The body of an HTTP response: empty content, non-empty content that is not
parseable JSON (carrying the decode-error text), or parsed JSON. -/
inductive Body where
  | empty : Body
  | malformed : String → Body
  | json : Json → Body
  deriving Repr

/-- Truthiness of `response.content`. -/
def Body.contentNonempty : Body → Bool
  | .empty => false
  | _ => true

/-- An HTTP response as seen through the `requests` library. -/
structure HttpResponse where
  status : Nat
  body : Body
  deriving Repr

/-- `response.json()`: the parsed body, or a raised `JSONDecodeError`. -/
def HttpResponse.json (r : HttpResponse) : Except PyExc Json :=
  match r.body with
  | .json j => .ok j
  | .empty => .error (.jsonDecodeError "Expecting value")
  | .malformed m => .error (.jsonDecodeError m)

/-- Outcome of one call into the transport: a response, or a raised
exception (connection refused, timeout, ...). -/
inductive TransportOutcome where
  | resp : HttpResponse → TransportOutcome
  | exc : PyExc → TransportOutcome
  deriving Repr

/-- The mocked transport: the scripted outcomes of the successive requests,
the number of requests made so far, and the log of the parameter / payload
dictionaries sent with each request. -/
structure Transport where
  pending : List TransportOutcome
  calls : Nat
  sent : List (List (String × Json))
  deriving Repr

/-- A fresh transport scripted with the given outcomes. -/
def Transport.mk0 (os : List TransportOutcome) : Transport :=
  { pending := os, calls := 0, sent := [] }

/-- Perform one HTTP request carrying the given parameter / payload
dictionary; consumes the next scripted outcome (an exhausted script behaves
as a connection error, a model artifact never reached by the claims). -/
def Transport.request (tr : Transport) (payload : List (String × Json)) :
    TransportOutcome × Transport :=
  match tr.pending with
  | [] => (.exc (.connectionError "transport exhausted"),
           { pending := [], calls := tr.calls + 1, sent := tr.sent ++ [payload] })
  | o :: rest => (o, { pending := rest, calls := tr.calls + 1, sent := tr.sent ++ [payload] })

/-- An ordered `except` clause list: each clause is a class test together
with the value its handler produces from the exception. -/
def runClauses {α : Type} (clauses : List ((PyExc → Bool) × (PyExc → α))) (e : PyExc) :
    Option α :=
  match clauses with
  | [] => none
  | (test, h) :: rest => if test e then some (h e) else runClauses rest e

/-! ### `utils.py`: TMDB key validation -/

/-- Constant `TMDB_API_KEY_VALID`. -/
def TMDB_API_KEY_VALID : String := "valid"

/-- Constant `TMDB_API_KEY_INVALID`. -/
def TMDB_API_KEY_INVALID : String := "invalid"

/-- Constant `TMDB_API_KEY_ERROR`. -/
def TMDB_API_KEY_ERROR : String := "error"

/-- The outer `except` clauses of `validate_tmdb_api_key`:
`except (ConnectionError, Timeout, RequestException)` then `except Exception`,
both returning the `"error"` classification. -/
def validateClauses : List ((PyExc → Bool) × (PyExc → String)) :=
  [(fun e => e.isConnectionErrorOrTimeout || e.isRequestException, fun _ => TMDB_API_KEY_ERROR),
   (PyExc.isException, fun _ => TMDB_API_KEY_ERROR)]

/-- Embedding of `utils.validate_tmdb_api_key`.  An exception not matched by
any clause would propagate; that case is marked by an `"UNCAUGHT"` result and
shown unreachable by the safety theorem. -/
def validate_tmdb_api_key (api_key : Option String) (tr : Transport) : String × Transport :=
  if !(pyTruthyStr api_key) then (TMDB_API_KEY_ERROR, tr)
  else
    let params : List (String × Json) := [("api_key", .str (api_key.getD ""))]
    let (o, tr1) := tr.request params
    match o with
    | .exc e => ((runClauses validateClauses e).getD ("UNCAUGHT " ++ e.text), tr1)
    | .resp r =>
      if r.status == 200 then
        match r.json with
        | .ok _ => (TMDB_API_KEY_VALID, tr1)
        | .error e =>
          if e.isValueError then (TMDB_API_KEY_ERROR, tr1)
          else ((runClauses validateClauses e).getD ("UNCAUGHT " ++ e.text), tr1)
      else if r.status == 401 then (TMDB_API_KEY_INVALID, tr1)
      else (TMDB_API_KEY_ERROR, tr1)

/-! ### `modules/tmdb_service.py` -/

/-- The `except` clauses shared verbatim by `TmdbService.search_movies`,
`OpenAIService.chat_completion` and
`OpenAIService.chat_completion_with_history`:
`except (ConnectionError, Timeout)`, `except RequestException`,
`except Exception`, producing the respective failure messages. -/
def requestExcClauses : List ((PyExc → Bool) × (PyExc → String)) :=
  [(PyExc.isConnectionErrorOrTimeout, fun e => "Connection error: " ++ e.text),
   (PyExc.isRequestException, fun e => "Request error: " ++ e.text),
   (PyExc.isException, fun e => "Unexpected error: " ++ e.text)]

/-- Run the shared clause chain; an unmatched exception would propagate, which
is marked by an `"UNCAUGHT"` message and shown unreachable by the safety
theorem. -/
def handleRequestExc (e : PyExc) : String :=
  (runClauses requestExcClauses e).getD ("UNCAUGHT " ++ e.text)

/-- State of a `TmdbService` instance: the credential and the per-instance
configuration cache (`_config_cache`, initially `None`). -/
structure TmdbService where
  api_key : Option String
  config_cache : Option Json
  deriving Repr

/-- `TmdbService.__init__`: stores the key, sets `_config_cache = None`. -/
def TmdbService.init (api_key : Option String) : TmdbService :=
  { api_key := api_key, config_cache := none }

/-- Python truthiness of the cache slot (`if not self._config_cache`). -/
def configTruthy : Option Json → Bool
  | none => false
  | some j => j.toBool

/-- Embedding of `TmdbService._get_configuration`: one GET against the
configuration endpoint; every non-200 status, unparseable 200 body or raised
exception yields `None`. -/
def TmdbService.get_configuration (svc : TmdbService) (tr : Transport) :
    Option Json × Transport :=
  if !(pyTruthyStr svc.api_key) then (none, tr)
  else
    let params : List (String × Json) := [("api_key", .str (svc.api_key.getD ""))]
    let (o, tr1) := tr.request params
    match o with
    | .exc _ => (none, tr1)
    | .resp r =>
      if r.status == 200 then
        match r.json with
        | .ok j => (some j, tr1)
        | .error _ => (none, tr1)
      else (none, tr1)

/-- Embedding of `TmdbService.get_movie_poster_url`.  A falsy poster path
returns `None` at once; otherwise the configuration is fetched when the cache
slot is falsy, and the URL is assembled from the cached configuration; any
exception inside the `try` yields `None` (`except Exception`). -/
def TmdbService.get_movie_poster_url (svc : TmdbService) (poster_path : Json)
    (size : String) (tr : Transport) : Option String × TmdbService × Transport :=
  if !poster_path.toBool then (none, svc, tr)
  else
    let (svc1, tr1) :=
      if !(configTruthy svc.config_cache) then
        let (cfg, tr') := svc.get_configuration tr
        ({ svc with config_cache := cfg }, tr')
      else (svc, tr)
    if !(configTruthy svc1.config_cache) then (none, svc1, tr1)
    else
      let run : Except PyExc (Option String) := do
        let images ← (svc1.config_cache.getD .null).get "images" (.obj [])
        let base ← images.get "base_url" .null
        if !base.toBool then pure none
        else pure (some (base.pyStr ++ size ++ poster_path.pyStr))
      match run with
      | .ok res => (res, svc1, tr1)
      | .error _ => (none, svc1, tr1)

/-- The release-year extraction inside `_format_movie_data`: a falsy
`release_date` stays `'Unknown'`; a non-empty string yields its segment before
the first `'-'` (`release_date.split('-')[0]`, whose `IndexError` branch is
unreachable since `split` never returns an empty list); a truthy non-string
raises `AttributeError` at `.split`, caught and mapped to `'Unknown'`. -/
def extractReleaseYear (rd : Json) : String :=
  if !rd.toBool then "Unknown"
  else
    match rd with
    | .str s => (pySplit s (Char.ofNat 45)).headD "Unknown"
    | _ => "Unknown"

/-- The overview normalization inside `_format_movie_data`: falsy values
become `'No overview available'`; a value of length > 200 is truncated
(strings: first 200 characters plus `'...'`; a non-string would raise at the
concatenation); a truthy value of length <= 200 is returned unchanged.
A truthy value without a length raises `TypeError` at `len`. -/
def formatOverview (ov : Json) : Except PyExc Json :=
  if !ov.toBool then .ok (.str "No overview available")
  else do
    let n ← pyLen ov
    if n > 200 then
      match ov with
      | .str s => .ok (.str (pyTake s 200 ++ "..."))
      | _ => .error (.typeError "can only concatenate")
    else .ok ov

/-- The normalized movie record returned by `_format_movie_data`. -/
structure FormattedMovie where
  id : Json
  title : Json
  overview : Json
  poster_url : Option String
  release_year : String
  vote_average : Json
  vote_count : Json
  deriving Repr

/-- Embedding of `TmdbService._format_movie_data`.  Exceptions it raises
(e.g. `movie_data` not a dict, or a truthy non-string overview) propagate to
the caller, with the poster-resolution state changes already applied. -/
def TmdbService.format_movie_data (svc : TmdbService) (movie_data : Json)
    (tr : Transport) : Except PyExc FormattedMovie × TmdbService × Transport :=
  match movie_data.get "poster_path" .null with
  | .error e => (.error e, svc, tr)
  | .ok pp =>
    let (poster_url, svc1, tr1) := svc.get_movie_poster_url pp "w500" tr
    let run : Except PyExc FormattedMovie := do
      let rd ← movie_data.get "release_date" (.str "")
      let release_year := extractReleaseYear rd
      let ov ← movie_data.get "overview" (.str "")
      let overview ← formatOverview ov
      let i ← movie_data.get "id" .null
      let t ← movie_data.get "title" (.str "Unknown Title")
      let va ← movie_data.get "vote_average" (.num 0)
      let vc ← movie_data.get "vote_count" (.num 0)
      pure { id := i, title := t, overview := overview, poster_url := poster_url,
             release_year := release_year, vote_average := va, vote_count := vc }
    (run, svc1, tr1)

/-- The `for movie_data in data.get('results', [])` loop of `search_movies`:
formats each raw result in order, threading the cache and the transport; the
first raised exception aborts the loop and propagates. -/
def TmdbService.formatMovies (svc : TmdbService) (tr : Transport) :
    List Json → Except PyExc (List FormattedMovie) × TmdbService × Transport
  | [] => (.ok [], svc, tr)
  | m :: rest =>
    match svc.format_movie_data m tr with
    | (.error e, svc1, tr1) => (.error e, svc1, tr1)
    | (.ok fm, svc1, tr1) =>
      match TmdbService.formatMovies svc1 tr1 rest with
      | (.error e, svc2, tr2) => (.error e, svc2, tr2)
      | (.ok fms, svc2, tr2) => (.ok (fm :: fms), svc2, tr2)

/-- The success payload of `search_movies`. -/
structure SearchPayload where
  movies : List FormattedMovie
  current_page : Json
  total_pages : Json
  total_results : Json
  deriving Repr

/-- The tagged result dictionary of `search_movies`
(`success: False, error: msg` or `success: True` plus the payload). -/
inductive SearchResult where
  | failure : String → SearchResult
  | success : SearchPayload → SearchResult
  deriving Repr

/-- Embedding of `TmdbService.search_movies`. -/
def TmdbService.search_movies (svc : TmdbService) (query : Option String)
    (page : Int) (tr : Transport) : SearchResult × TmdbService × Transport :=
  if !(pyTruthyStr svc.api_key) then (.failure "API key is required", svc, tr)
  else if !(pyTruthyStr query) || pyStrip (query.getD "") == "" then
    (.failure "Query cannot be empty", svc, tr)
  else
    let params : List (String × Json) :=
      [("api_key", .str (svc.api_key.getD "")), ("query", .str (pyStrip (query.getD ""))),
       ("page", .num (page : Rat)), ("include_adult", .bool false)]
    let (o, tr1) := tr.request params
    match o with
    | .exc e => (.failure (handleRequestExc e), svc, tr1)
    | .resp r =>
      if r.status == 200 then
        match r.json with
        | .error e => (.failure (handleRequestExc e), svc, tr1)
        | .ok data =>
          match data.get "results" (.arr []) with
          | .error e => (.failure (handleRequestExc e), svc, tr1)
          | .ok results =>
            match results with
            | .arr items =>
              match TmdbService.formatMovies svc tr1 items with
              | (.error e, svc2, tr2) => (.failure (handleRequestExc e), svc2, tr2)
              | (.ok movies, svc2, tr2) =>
                let run : Except PyExc SearchPayload := do
                  let cp ← data.get "page" (.num 1)
                  let tp ← data.get "total_pages" (.num 0)
                  let trr ← data.get "total_results" (.num 0)
                  pure { movies := movies, current_page := cp,
                         total_pages := tp, total_results := trr }
                match run with
                | .ok payload => (.success payload, svc2, tr2)
                | .error e => (.failure (handleRequestExc e), svc2, tr2)
            | _ => (.failure (handleRequestExc (.typeError "object is not iterable")), svc, tr1)
      else if r.status == 401 then (.failure "Invalid API key", svc, tr1)
      else
        let run : Except PyExc String := do
          let ed ← if r.body.contentNonempty then r.json else pure (Json.obj [])
          let sm ← ed.get "status_message" (.str ("HTTP " ++ toString r.status))
          pure sm.pyStr
        match run with
        | .ok m => (.failure ("API error: " ++ m), svc, tr1)
        | .error e => (.failure (handleRequestExc e), svc, tr1)

/-! ### `modules/openai_service.py` -/

/-- Constant `API_KEY_REQUIRED_ERROR`. -/
def API_KEY_REQUIRED_ERROR : String := "API key is required"

/-- Constant `INVALID_API_KEY_ERROR`. -/
def INVALID_API_KEY_ERROR : String := "Invalid API key"

/-- State of an `OpenAIService` instance: just the credential. -/
structure OpenAIService where
  api_key : Option String
  deriving Repr

/-- The success dictionary of the chat-completion calls. -/
structure ChatSuccess where
  response : Json
  model : Json
  usage : Json
  finish_reason : Json
  deriving Repr

/-- The tagged result dictionary of the chat-completion calls. -/
inductive ChatResult where
  | failure : String → ChatResult
  | success : ChatSuccess → ChatResult
  deriving Repr

/-- The request payload built by both chat-completion functions:
`model`, `messages`, `temperature`, plus `max_tokens` appended only when the
`max_tokens` argument is truthy (`if max_tokens: payload['max_tokens'] = ...`). -/
def chatPayload (model : String) (messages : Json) (temperature : Rat)
    (max_tokens : Option Int) : List (String × Json) :=
  let base := [("model", Json.str model), ("messages", messages),
               ("temperature", Json.num temperature)]
  if pyTruthyInt max_tokens then
    base ++ [("max_tokens", Json.num ((max_tokens.getD 0 : Int) : Rat))]
  else base

/-- The HTTP-200 branch shared verbatim by `chat_completion` and
`chat_completion_with_history`: parse the body, extract the first choice's
message content (placeholder `'No response generated'` when
`data.get('choices')` is falsy or its length is 0), then build the success
dictionary whose `finish_reason` entry evaluates
`data.get('choices', [the-empty-dict])[0].get('finish_reason', 'unknown')` —
note the `[0]` subscription, which raises `IndexError` when `choices` is a
present but empty list. -/
def extractChatSuccess (r : HttpResponse) (model : String) : Except PyExc ChatSuccess := do
  let data ← r.json
  let choices ← data.get "choices" .null
  let content ←
    if choices.toBool then do
      let cs ← data.item "choices"
      let n ← pyLen cs
      if n > 0 then do
        let c0 ← cs.at0
        let msg ← c0.item "message"
        msg.item "content"
      else pure (Json.str "No response generated")
    else pure (Json.str "No response generated")
  let mdl ← data.get "model" (.str model)
  let usage ← data.get "usage" (.obj [])
  let cds ← data.get "choices" (.arr [Json.obj []])
  let first ← cds.at0
  let fr ← first.get "finish_reason" (.str "unknown")
  pure { response := content, model := mdl, usage := usage, finish_reason := fr }

/-- The non-200/401/429 branch shared by the chat-completion functions:
`error_data = response.json()` and the `.get` chain inside a
`try ... except ValueError`, the fallback message being `'HTTP {status}'`.
Exceptions that are not `ValueError` (e.g. `AttributeError` from `.get` on a
non-dict) propagate. -/
def openaiErrorMessage (r : HttpResponse) : Except PyExc String :=
  let run : Except PyExc Json := do
    let ed ← r.json
    let eo ← ed.get "error" (.obj [])
    eo.get "message" (.str ("HTTP " ++ toString r.status))
  match run with
  | .ok j => .ok j.pyStr
  | .error e => if e.isValueError then .ok ("HTTP " ++ toString r.status) else .error e

/-- The response dispatch shared verbatim by `chat_completion` and
`chat_completion_with_history`: 200 → success extraction, 401 → invalid key,
429 → rate-limit message, other statuses → provider error message, raised
exceptions → the shared `except` chain. -/
def openaiHandleResponse (o : TransportOutcome) (model : String) : ChatResult :=
  match o with
  | .exc e => .failure (handleRequestExc e)
  | .resp r =>
    if r.status == 200 then
      match extractChatSuccess r model with
      | .ok s => .success s
      | .error e => .failure (handleRequestExc e)
    else if r.status == 401 then .failure INVALID_API_KEY_ERROR
    else if r.status == 429 then .failure "Rate limit exceeded. Please try again later."
    else
      match openaiErrorMessage r with
      | .ok m => .failure ("API error: " ++ m)
      | .error e => .failure (handleRequestExc e)

/-- Embedding of `OpenAIService.chat_completion`. -/
def OpenAIService.chat_completion (svc : OpenAIService) (message : Option String)
    (system_message : Option String) (model : String) (temperature : Rat)
    (max_tokens : Option Int) (tr : Transport) : ChatResult × Transport :=
  if !(pyTruthyStr svc.api_key) then (.failure API_KEY_REQUIRED_ERROR, tr)
  else if !(pyTruthyStr message) || pyStrip (message.getD "") == "" then
    (.failure "Message cannot be empty", tr)
  else
    let messages : List Json :=
      (if pyTruthyStr system_message then
        [Json.obj [("role", .str "system"), ("content", .str (system_message.getD ""))]]
       else []) ++
      [Json.obj [("role", .str "user"), ("content", .str (pyStrip (message.getD "")))]]
    let payload := chatPayload model (.arr messages) temperature max_tokens
    let (o, tr1) := tr.request payload
    (openaiHandleResponse o model, tr1)

/-- Embedding of `OpenAIService.chat_completion_with_history`. -/
def OpenAIService.chat_completion_with_history (svc : OpenAIService)
    (conversation_history : List Json) (model : String) (temperature : Rat)
    (max_tokens : Option Int) (tr : Transport) : ChatResult × Transport :=
  if !(pyTruthyStr svc.api_key) then (.failure API_KEY_REQUIRED_ERROR, tr)
  else if conversation_history.isEmpty then
    (.failure "Conversation history cannot be empty", tr)
  else
    let payload := chatPayload model (.arr conversation_history) temperature max_tokens
    let (o, tr1) := tr.request payload
    (openaiHandleResponse o model, tr1)

/-! ### Helper lemmas -/

/-- A non-empty credential string is truthy. -/
theorem pyTruthyStr_of_ne (k : String) (hk : k ≠ "") : pyTruthyStr (some k) = true := by
  simp [pyTruthyStr, hk]

/-- Every exception is caught by the clause chain of `validate_tmdb_api_key`
and classified as `"error"`; in particular the propagation fallback is never
used. -/
theorem runClauses_validateClauses_getD (e : PyExc) (d : String) :
    (runClauses validateClauses e).getD d = TMDB_API_KEY_ERROR := by
  cases e <;> rfl

/-- An upstream field that is omitted or explicitly `null`. -/
def nullOrAbsent (o : Option Json) : Prop := o = none ∨ o = some .null

/-! ### Claim theorems -/

/-- Claim C1, counterexample: on a raw record whose `title`, `vote_average`
and `vote_count` are explicitly `null` and whose `release_date` is the
present but unparsable string `"not-a-date"`, `_format_movie_data` propagates
the raw nulls into `title`, `vote_average` and `vote_count` (instead of the
claimed defaults `'Unknown Title'`, `0.0`, `0`) and returns release year
`"not"` (instead of the claimed `'Unknown'`). -/
theorem c1_counterexample :
    (TmdbService.format_movie_data (TmdbService.init (some "k"))
        (.obj [("title", .null), ("vote_average", .null), ("vote_count", .null),
               ("release_date", .str "not-a-date")]) (Transport.mk0 [])).1 =
      .ok { id := .null, title := .null, overview := .str "No overview available",
            poster_url := none, release_year := "not", vote_average := .null,
            vote_count := .null } ∧
    Json.null ≠ Json.str "Unknown Title" ∧ Json.null ≠ Json.num 0 ∧
    ("not" : String) ≠ "Unknown" := by
  refine ⟨rfl, ?_, ?_, ?_⟩ <;> simp

/-- Claim C1, amended: when `title`, `vote_average` and `vote_count` are
omitted (not merely null) and `overview`, `release_date` and `poster_path`
are omitted or null, `_format_movie_data` raises no exception, makes no
network request, and produces every claimed default: title `'Unknown Title'`,
synopsis `'No overview available'`, image reference null, release year
`'Unknown'`, rating `0.0`, rating count `0`.  (Explicitly null `title` /
`vote_average` / `vote_count` are propagated as null, and a present but
unparsable release-date string yields its segment before the first dash, as
shown by the counterexample.) -/
theorem c1_amended (fs : List (String × Json)) (svc : TmdbService) (tr : Transport)
    (htitle : fs.lookup "title" = none)
    (hov : nullOrAbsent (fs.lookup "overview"))
    (hrd : nullOrAbsent (fs.lookup "release_date"))
    (hpp : nullOrAbsent (fs.lookup "poster_path"))
    (hva : fs.lookup "vote_average" = none)
    (hvc : fs.lookup "vote_count" = none) :
    ∃ fm : FormattedMovie,
      TmdbService.format_movie_data svc (.obj fs) tr = (.ok fm, svc, tr) ∧
      fm.title = .str "Unknown Title" ∧ fm.overview = .str "No overview available" ∧
      fm.poster_url = none ∧ fm.release_year = "Unknown" ∧
      fm.vote_average = .num 0 ∧ fm.vote_count = .num 0 := by
  rcases hov with hov | hov <;> rcases hrd with hrd | hrd <;> rcases hpp with hpp | hpp <;>
    exact ⟨⟨(fs.lookup "id").getD .null, .str "Unknown Title", .str "No overview available",
            none, "Unknown", .num 0, .num 0⟩,
      by simp [TmdbService.format_movie_data, Json.get, htitle, hva, hvc, hov, hrd, hpp,
        TmdbService.get_movie_poster_url, Json.toBool, extractReleaseYear, formatOverview,
        pyLen, Except.bind, Bind.bind, Pure.pure, Except.pure], rfl, rfl, rfl, rfl, rfl, rfl⟩

/-- Witness for `c1_amended`, at the raw record with every field omitted. -/
theorem c1_amended_witness :
    ∃ fm : FormattedMovie,
      TmdbService.format_movie_data (TmdbService.init (some "k")) (.obj [])
          (Transport.mk0 []) =
        (.ok fm, TmdbService.init (some "k"), Transport.mk0 []) ∧
      fm.title = .str "Unknown Title" ∧ fm.overview = .str "No overview available" ∧
      fm.poster_url = none ∧ fm.release_year = "Unknown" ∧
      fm.vote_average = .num 0 ∧ fm.vote_count = .num 0 :=
  c1_amended [] (TmdbService.init (some "k")) (Transport.mk0 []) rfl
    (Or.inl rfl) (Or.inl rfl) (Or.inl rfl) rfl rfl

/-- Claim C2: an absent or empty credential makes `validate_tmdb_api_key`
return the `'error'` classification and makes `TmdbService.search_movies` and
`OpenAIService.chat_completion_with_history` return a failure result, all
three without touching the transport (no network call: pending outcomes,
call counter and sent log unchanged). -/
theorem c2_empty_credential (k : Option String) (hk : k = none ∨ k = some "")
    (cache : Option Json) (q : Option String) (page : Int)
    (hist : List Json) (model : String) (temp : Rat) (mt : Option Int)
    (tr tr2 tr3 : Transport) :
    validate_tmdb_api_key k tr = (TMDB_API_KEY_ERROR, tr) ∧
    TmdbService.search_movies ⟨k, cache⟩ q page tr2 =
      (.failure "API key is required", ⟨k, cache⟩, tr2) ∧
    OpenAIService.chat_completion_with_history ⟨k⟩ hist model temp mt tr3 =
      (.failure API_KEY_REQUIRED_ERROR, tr3) := by
  rcases hk with rfl | rfl <;> exact ⟨rfl, rfl, rfl⟩

/-- Witness for `c2_empty_credential`, at the absent credential. -/
theorem c2_empty_credential_witness :
    validate_tmdb_api_key none (Transport.mk0 []) =
      (TMDB_API_KEY_ERROR, Transport.mk0 []) ∧
    TmdbService.search_movies ⟨none, none⟩ (some "Inception") 1 (Transport.mk0 []) =
      (.failure "API key is required", ⟨none, none⟩, Transport.mk0 []) ∧
    OpenAIService.chat_completion_with_history ⟨none⟩ [] "gpt-3.5-turbo" 1 none
        (Transport.mk0 []) =
      (.failure API_KEY_REQUIRED_ERROR, Transport.mk0 []) :=
  c2_empty_credential none (Or.inl rfl) none (some "Inception") 1 [] "gpt-3.5-turbo" 1 none
    (Transport.mk0 []) (Transport.mk0 []) (Transport.mk0 [])

/-- Claim C3: for a non-empty credential, `validate_tmdb_api_key` classifies
every transport outcome as the spec states: HTTP 200 with a parseable JSON
body is `'valid'`; HTTP 401 is `'invalid'`; any other status, any raised
transport exception, and a 200 response whose body is not parseable JSON are
`'error'` (in particular an unparseable 200 body is never `'valid'`). -/
theorem c3_validate_classification (k : String) (hk : k ≠ "")
    (rest : List TransportOutcome) (n : Nat) (lg : List (List (String × Json))) :
    (∀ (r : HttpResponse) (j : Json), r.status = 200 → r.body = Body.json j →
        (validate_tmdb_api_key (some k) ⟨.resp r :: rest, n, lg⟩).1 = TMDB_API_KEY_VALID) ∧
    (∀ r : HttpResponse, r.status = 401 →
        (validate_tmdb_api_key (some k) ⟨.resp r :: rest, n, lg⟩).1 = TMDB_API_KEY_INVALID) ∧
    (∀ r : HttpResponse, r.status ≠ 200 → r.status ≠ 401 →
        (validate_tmdb_api_key (some k) ⟨.resp r :: rest, n, lg⟩).1 = TMDB_API_KEY_ERROR) ∧
    (∀ r : HttpResponse, r.status = 200 → (∀ j : Json, r.body ≠ Body.json j) →
        (validate_tmdb_api_key (some k) ⟨.resp r :: rest, n, lg⟩).1 = TMDB_API_KEY_ERROR) ∧
    (∀ e : PyExc,
        (validate_tmdb_api_key (some k) ⟨.exc e :: rest, n, lg⟩).1 = TMDB_API_KEY_ERROR) := by
  have hpt : pyTruthyStr (some k) = true := pyTruthyStr_of_ne k hk
  refine ⟨?_, ?_, ?_, ?_, ?_⟩
  · intro r j h200 hbody
    simp [validate_tmdb_api_key, hpt, Transport.request, h200, hbody, HttpResponse.json]
  · intro r h401
    simp [validate_tmdb_api_key, hpt, Transport.request, h401]
  · intro r h200 h401
    simp [validate_tmdb_api_key, hpt, Transport.request, h200, h401]
  · intro r h200 hbody
    cases hb : r.body with
    | empty => simp [validate_tmdb_api_key, hpt, Transport.request, h200, hb,
        HttpResponse.json, PyExc.isValueError]
    | malformed m => simp [validate_tmdb_api_key, hpt, Transport.request, h200, hb,
        HttpResponse.json, PyExc.isValueError]
    | json j => exact absurd hb (hbody j)
  · intro e
    simp [validate_tmdb_api_key, hpt, Transport.request, runClauses_validateClauses_getD]

/-- Witness for `c3_validate_classification`: a 200 response with parseable
body is classified `'valid'` for the concrete credential `"abc123"`. -/
theorem c3_validate_classification_witness :
    (validate_tmdb_api_key (some "abc123")
        ⟨[.resp ⟨200, .json (.obj [("success", .bool true)])⟩], 0, []⟩).1 =
      TMDB_API_KEY_VALID :=
  (c3_validate_classification "abc123" (by decide) [] 0 []).1
    ⟨200, .json (.obj [("success", .bool true)])⟩ (.obj [("success", .bool true)]) rfl rfl

/-- Claim C4, counterexample: for non-200 responses the claimed
`'HTTP {status}'` fallback does not hold.  (1) TMDB search, 500 with a
non-empty body that is not parseable JSON: `response.json()` raises while
parsing the error body (the `if response.content` guard only covers the
empty body) and the decode error maps to `'Request error: <decode text>'`.
(2) TMDB search, 500 with a body parsing to a non-object (a JSON array):
`error_data.get` raises `AttributeError` into the catch-all, giving
`'Unexpected error: ...'`.  (3) chat, 500 with body `{"error": "bad"}`
(a non-dict `error` field): `.get('message', ...)` raises `AttributeError`
past `except ValueError` into the catch-all, giving `'Unexpected error: ...'`.
None of the three messages carries `'HTTP'` at all. -/
theorem c4_counterexample :
    ((TmdbService.search_movies (TmdbService.init (some "k")) (some "Inception") 1
        (Transport.mk0 [.resp ⟨500, .malformed "Expecting value"⟩])).1 =
      .failure "Request error: Expecting value" ∧
     strContains "Request error: Expecting value" "HTTP" = false) ∧
    ((TmdbService.search_movies (TmdbService.init (some "k")) (some "Inception") 1
        (Transport.mk0 [.resp ⟨500, .json (.arr [])⟩])).1 =
      .failure "Unexpected error: object has no attribute get: status_message" ∧
     strContains "Unexpected error: object has no attribute get: status_message"
       "HTTP" = false) ∧
    ((OpenAIService.chat_completion_with_history ⟨some "k"⟩
        [.obj [("role", .str "user"), ("content", .str "hi")]] "gpt-3.5-turbo" 1 none
        (Transport.mk0 [.resp ⟨500, .json (.obj [("error", .str "bad")])⟩])).1 =
      .failure "Unexpected error: object has no attribute get: message" ∧
     strContains "Unexpected error: object has no attribute get: message"
       "HTTP" = false) :=
  ⟨⟨rfl, by decide⟩, ⟨rfl, by decide⟩, ⟨rfl, by decide⟩⟩

/-- Claim C4, amended: search 401 yields the distinguishable
`'Invalid API key'`; chat 401 yields `'Invalid API key'` and chat 429 the
distinguishable rate-limit message; raised transport exceptions yield a
failure carrying the underlying exception text.  For any other non-200
status, the provider-message / `'HTTP {status}'` mapping holds only when the
error body has the shape the code expects: a body parsing to a JSON object
carries `status_message` (search) or `error.message` (chat) when present as
a string, and otherwise `'HTTP {status}'`; an empty body yields
`'HTTP {status}'` in both wrappers, and an unparseable body yields
`'HTTP {status}'` in chat only (guarded by `except ValueError`).  Outside
those shapes the raised exception lands in the generic handlers: for the
search an unparseable non-empty body yields `'Request error: <decode text>'`,
and a body parsing to a non-object (both wrappers) or a chat `error` field
that is present but not an object yields `'Unexpected error: <exception
text>'` — never `'HTTP {status}'`. -/
theorem c4_amended :
    (∀ (k q : String) (cache : Option Json) (page : Int) (rest : List TransportOutcome)
        (n : Nat) (lg : List (List (String × Json))) (e : PyExc),
        k ≠ "" → pyStrip q ≠ "" →
        ((TmdbService.search_movies ⟨some k, cache⟩ (some q) page ⟨.exc e :: rest, n, lg⟩).1 =
            .failure (handleRequestExc e) ∧
         (∀ m, e = .connectionError m ∨ e = .timeout m →
            handleRequestExc e = "Connection error: " ++ m) ∧
         (∀ m, e = .requestException m → handleRequestExc e = "Request error: " ++ m))) ∧
    (∀ (k q : String) (cache : Option Json) (page : Int) (rest : List TransportOutcome)
        (n : Nat) (lg : List (List (String × Json))) (r : HttpResponse),
        k ≠ "" → pyStrip q ≠ "" →
        ((r.status = 401 →
            (TmdbService.search_movies ⟨some k, cache⟩ (some q) page
                ⟨.resp r :: rest, n, lg⟩).1 = .failure "Invalid API key") ∧
         (r.status ≠ 200 → r.status ≠ 401 →
            ((∀ (efs : List (String × Json)) (m : String), r.body = .json (.obj efs) →
                efs.lookup "status_message" = some (.str m) →
                (TmdbService.search_movies ⟨some k, cache⟩ (some q) page
                    ⟨.resp r :: rest, n, lg⟩).1 = .failure ("API error: " ++ m)) ∧
             (∀ efs : List (String × Json), r.body = .json (.obj efs) →
                efs.lookup "status_message" = none →
                (TmdbService.search_movies ⟨some k, cache⟩ (some q) page
                    ⟨.resp r :: rest, n, lg⟩).1 =
                  .failure ("API error: " ++ ("HTTP " ++ toString r.status))) ∧
             (r.body = .empty →
                (TmdbService.search_movies ⟨some k, cache⟩ (some q) page
                    ⟨.resp r :: rest, n, lg⟩).1 =
                  .failure ("API error: " ++ ("HTTP " ++ toString r.status))) ∧
             (∀ m : String, r.body = .malformed m →
                (TmdbService.search_movies ⟨some k, cache⟩ (some q) page
                    ⟨.resp r :: rest, n, lg⟩).1 = .failure ("Request error: " ++ m)) ∧
             (∀ j : Json, r.body = .json j → Json.isObj j = false →
                (TmdbService.search_movies ⟨some k, cache⟩ (some q) page
                    ⟨.resp r :: rest, n, lg⟩).1 =
                  .failure "Unexpected error: object has no attribute get: status_message"))))) ∧
    (∀ (k model : String) (hist : List Json) (temp : Rat) (mt : Option Int)
        (rest : List TransportOutcome) (n : Nat) (lg : List (List (String × Json)))
        (e : PyExc),
        k ≠ "" → hist ≠ [] →
        (OpenAIService.chat_completion_with_history ⟨some k⟩ hist model temp mt
            ⟨.exc e :: rest, n, lg⟩).1 = .failure (handleRequestExc e)) ∧
    (∀ (k model : String) (hist : List Json) (temp : Rat) (mt : Option Int)
        (rest : List TransportOutcome) (n : Nat) (lg : List (List (String × Json)))
        (r : HttpResponse),
        k ≠ "" → hist ≠ [] →
        ((r.status = 401 →
            (OpenAIService.chat_completion_with_history ⟨some k⟩ hist model temp mt
                ⟨.resp r :: rest, n, lg⟩).1 = .failure INVALID_API_KEY_ERROR) ∧
         (r.status = 429 →
            (OpenAIService.chat_completion_with_history ⟨some k⟩ hist model temp mt
                ⟨.resp r :: rest, n, lg⟩).1 =
              .failure "Rate limit exceeded. Please try again later.") ∧
         (r.status ≠ 200 → r.status ≠ 401 → r.status ≠ 429 →
            ((∀ (efs eo : List (String × Json)) (m : String),
                r.body = .json (.obj efs) → efs.lookup "error" = some (.obj eo) →
                eo.lookup "message" = some (.str m) →
                (OpenAIService.chat_completion_with_history ⟨some k⟩ hist model temp mt
                    ⟨.resp r :: rest, n, lg⟩).1 = .failure ("API error: " ++ m)) ∧
             (∀ efs : List (String × Json), r.body = .json (.obj efs) →
                efs.lookup "error" = none →
                (OpenAIService.chat_completion_with_history ⟨some k⟩ hist model temp mt
                    ⟨.resp r :: rest, n, lg⟩).1 =
                  .failure ("API error: " ++ ("HTTP " ++ toString r.status))) ∧
             (∀ (efs eo : List (String × Json)), r.body = .json (.obj efs) →
                efs.lookup "error" = some (.obj eo) → eo.lookup "message" = none →
                (OpenAIService.chat_completion_with_history ⟨some k⟩ hist model temp mt
                    ⟨.resp r :: rest, n, lg⟩).1 =
                  .failure ("API error: " ++ ("HTTP " ++ toString r.status))) ∧
             (r.body = .empty →
                (OpenAIService.chat_completion_with_history ⟨some k⟩ hist model temp mt
                    ⟨.resp r :: rest, n, lg⟩).1 =
                  .failure ("API error: " ++ ("HTTP " ++ toString r.status))) ∧
             (∀ m : String, r.body = .malformed m →
                (OpenAIService.chat_completion_with_history ⟨some k⟩ hist model temp mt
                    ⟨.resp r :: rest, n, lg⟩).1 =
                  .failure ("API error: " ++ ("HTTP " ++ toString r.status))) ∧
             (∀ j : Json, r.body = .json j → Json.isObj j = false →
                (OpenAIService.chat_completion_with_history ⟨some k⟩ hist model temp mt
                    ⟨.resp r :: rest, n, lg⟩).1 =
                  .failure "Unexpected error: object has no attribute get: error") ∧
             (∀ (efs : List (String × Json)) (v : Json), r.body = .json (.obj efs) →
                efs.lookup "error" = some v → Json.isObj v = false →
                (OpenAIService.chat_completion_with_history ⟨some k⟩ hist model temp mt
                    ⟨.resp r :: rest, n, lg⟩).1 =
                  .failure "Unexpected error: object has no attribute get: message"))))) := by
  have qne : ∀ q : String, pyStrip q ≠ "" → q ≠ "" := by
    intro q hq h
    exact hq (by rw [h]; rfl)
  refine ⟨?_, ?_, ?_, ?_⟩
  · intro k q cache page rest n lg e hk hq
    refine ⟨?_, ?_, ?_⟩
    · simp [TmdbService.search_movies, pyTruthyStr_of_ne k hk,
        pyTruthyStr_of_ne q (qne q hq), hq, Transport.request]
    · rintro m (rfl | rfl) <;> rfl
    · rintro m rfl; rfl
  · intro k q cache page rest n lg r hk hq
    constructor
    · intro h401
      simp [TmdbService.search_movies, pyTruthyStr_of_ne k hk,
        pyTruthyStr_of_ne q (qne q hq), hq, Transport.request, h401]
    · intro h200 h401
      refine ⟨?_, ?_, ?_, ?_, ?_⟩
      · intro efs m hb hsm
        simp [TmdbService.search_movies, pyTruthyStr_of_ne k hk,
          pyTruthyStr_of_ne q (qne q hq), hq, Transport.request,
          h200, h401, hb, Body.contentNonempty, HttpResponse.json, Json.get, hsm,
          Json.pyStr, Except.bind, Bind.bind, Pure.pure, Except.pure]
      · intro efs hb hsm
        simp [TmdbService.search_movies, pyTruthyStr_of_ne k hk,
          pyTruthyStr_of_ne q (qne q hq), hq, Transport.request,
          h200, h401, hb, Body.contentNonempty, HttpResponse.json, Json.get, hsm,
          Json.pyStr, Except.bind, Bind.bind, Pure.pure, Except.pure]
      · intro hb
        simp [TmdbService.search_movies, pyTruthyStr_of_ne k hk,
          pyTruthyStr_of_ne q (qne q hq), hq, Transport.request,
          h200, h401, hb, Body.contentNonempty, Json.get, Json.pyStr,
          Except.bind, Bind.bind, Pure.pure, Except.pure]
      · intro m hb
        simp [TmdbService.search_movies, pyTruthyStr_of_ne k hk,
          pyTruthyStr_of_ne q (qne q hq), hq, Transport.request,
          h200, h401, hb, Body.contentNonempty, HttpResponse.json, handleRequestExc,
          runClauses, requestExcClauses, PyExc.isConnectionErrorOrTimeout,
          PyExc.isRequestException, PyExc.text, Except.bind, Bind.bind]
      · intro j hb hobj
        cases j <;>
          simp [TmdbService.search_movies, pyTruthyStr_of_ne k hk,
            pyTruthyStr_of_ne q (qne q hq), hq, Transport.request,
            h200, h401, hb, Body.contentNonempty, HttpResponse.json, Json.get,
            handleRequestExc, runClauses, requestExcClauses,
            PyExc.isConnectionErrorOrTimeout, PyExc.isRequestException,
            PyExc.isException, PyExc.text, Json.isObj,
            Except.bind, Bind.bind, Pure.pure, Except.pure] at hobj ⊢
  · intro k model hist temp mt rest n lg e hk hh
    cases hist with
    | nil => exact absurd rfl hh
    | cons a t =>
      simp [OpenAIService.chat_completion_with_history, pyTruthyStr_of_ne k hk,
        Transport.request, openaiHandleResponse]
  · intro k model hist temp mt rest n lg r hk hh
    cases hist with
    | nil => exact absurd rfl hh
    | cons a t =>
      refine ⟨?_, ?_, ?_⟩
      · intro h401
        simp [OpenAIService.chat_completion_with_history, pyTruthyStr_of_ne k hk,
          Transport.request, openaiHandleResponse, h401]
      · intro h429
        simp [OpenAIService.chat_completion_with_history, pyTruthyStr_of_ne k hk,
          Transport.request, openaiHandleResponse, h429]
      · intro h200 h401 h429
        refine ⟨?_, ?_, ?_, ?_, ?_, ?_, ?_⟩
        · intro efs eo m hb herr hmsg
          simp [OpenAIService.chat_completion_with_history, pyTruthyStr_of_ne k hk,
            Transport.request, openaiHandleResponse, h200, h401, h429, hb,
            openaiErrorMessage, HttpResponse.json, Json.get, herr, hmsg, Json.pyStr,
            Except.bind, Bind.bind, Pure.pure, Except.pure]
        · intro efs hb herr
          simp [OpenAIService.chat_completion_with_history, pyTruthyStr_of_ne k hk,
            Transport.request, openaiHandleResponse, h200, h401, h429, hb,
            openaiErrorMessage, HttpResponse.json, Json.get, herr, Json.pyStr,
            List.lookup, Except.bind, Bind.bind, Pure.pure, Except.pure]
        · intro efs eo hb herr hmsg
          simp [OpenAIService.chat_completion_with_history, pyTruthyStr_of_ne k hk,
            Transport.request, openaiHandleResponse, h200, h401, h429, hb,
            openaiErrorMessage, HttpResponse.json, Json.get, herr, hmsg, Json.pyStr,
            Except.bind, Bind.bind, Pure.pure, Except.pure]
        · intro hb
          simp [OpenAIService.chat_completion_with_history, pyTruthyStr_of_ne k hk,
            Transport.request, openaiHandleResponse, h200, h401, h429, hb,
            openaiErrorMessage, HttpResponse.json, PyExc.isValueError,
            Except.bind, Bind.bind, Pure.pure, Except.pure]
        · intro m hb
          simp [OpenAIService.chat_completion_with_history, pyTruthyStr_of_ne k hk,
            Transport.request, openaiHandleResponse, h200, h401, h429, hb,
            openaiErrorMessage, HttpResponse.json, PyExc.isValueError,
            Except.bind, Bind.bind, Pure.pure, Except.pure]
        · intro j hb hobj
          cases j <;>
            simp [OpenAIService.chat_completion_with_history, pyTruthyStr_of_ne k hk,
              Transport.request, openaiHandleResponse, h200, h401, h429, hb,
              openaiErrorMessage, HttpResponse.json, Json.get, PyExc.isValueError,
              handleRequestExc, runClauses, requestExcClauses,
              PyExc.isConnectionErrorOrTimeout, PyExc.isRequestException,
              PyExc.isException, PyExc.text, Json.isObj,
              Except.bind, Bind.bind, Pure.pure, Except.pure] at hobj ⊢
        · intro efs v hb herr hvobj
          cases v <;>
            simp [OpenAIService.chat_completion_with_history, pyTruthyStr_of_ne k hk,
              Transport.request, openaiHandleResponse, h200, h401, h429, hb,
              openaiErrorMessage, HttpResponse.json, Json.get, herr, PyExc.isValueError,
              handleRequestExc, runClauses, requestExcClauses,
              PyExc.isConnectionErrorOrTimeout, PyExc.isRequestException,
              PyExc.isException, PyExc.text, Json.isObj,
              Except.bind, Bind.bind, Pure.pure, Except.pure] at hvobj ⊢

/-- Witness for `c4_amended`: a 401 search response maps to the
distinguishable `'Invalid API key'` failure at concrete inputs. -/
theorem c4_amended_witness :
    (TmdbService.search_movies ⟨some "k", none⟩ (some "Inception") 1
        ⟨[.resp ⟨401, .json (.obj [])⟩], 0, []⟩).1 = .failure "Invalid API key" :=
  ((c4_amended.2.1 "k" "Inception" none 1 [] 0 [] ⟨401, .json (.obj [])⟩
      (by decide) (by decide)).1) rfl

/-- Claim C5, counterexample: the empty string is a raw overview of length
at most 200, yet it is not passed through unchanged — `_format_movie_data`
replaces it (being falsy) with the placeholder `'No overview available'`. -/
theorem c5_counterexample :
    (TmdbService.format_movie_data (TmdbService.init (some "k"))
        (.obj [("overview", .str "")]) (Transport.mk0 [])).1 =
      .ok { id := .null, title := .str "Unknown Title",
            overview := .str "No overview available", poster_url := none,
            release_year := "Unknown", vote_average := .num 0, vote_count := .num 0 } ∧
    Json.str "No overview available" ≠ Json.str "" := by
  exact ⟨rfl, by simp⟩

/-- Claim C5, amended: a raw overview string of length > 200 is normalized to
its first 200 characters followed by the 3-character marker `'...'`; a
non-empty overview of length at most 200 is passed through unchanged; the
empty overview becomes the placeholder `'No overview available'`. -/
theorem c5_amended (s : String) (fs : List (String × Json)) (svc : TmdbService)
    (tr : Transport) (hov : fs.lookup "overview" = some (.str s)) :
    ∃ fm : FormattedMovie,
      (TmdbService.format_movie_data svc (.obj fs) tr).1 = .ok fm ∧
      fm.overview = (if s = "" then Json.str "No overview available"
                     else if s.length > 200 then Json.str (pyTake s 200 ++ "...")
                     else Json.str s) := by
  rcases hpo : svc.get_movie_poster_url ((fs.lookup "poster_path").getD .null) "w500" tr
    with ⟨pu, svc1, tr1⟩
  by_cases hs : s = ""
  · refine ⟨⟨(fs.lookup "id").getD .null, (fs.lookup "title").getD (.str "Unknown Title"),
      .str "No overview available", pu,
      extractReleaseYear ((fs.lookup "release_date").getD (.str "")),
      (fs.lookup "vote_average").getD (.num 0), (fs.lookup "vote_count").getD (.num 0)⟩,
      ?_, by simp [hs]⟩
    subst hs
    simp [TmdbService.format_movie_data, Json.get, hov, hpo, formatOverview, Json.toBool,
      pyLen, Except.bind, Bind.bind, Pure.pure, Except.pure]
  · by_cases hl : s.length > 200
    · refine ⟨⟨(fs.lookup "id").getD .null, (fs.lookup "title").getD (.str "Unknown Title"),
        .str (pyTake s 200 ++ "..."), pu,
        extractReleaseYear ((fs.lookup "release_date").getD (.str "")),
        (fs.lookup "vote_average").getD (.num 0), (fs.lookup "vote_count").getD (.num 0)⟩,
        ?_, by simp [hs, hl]⟩
      simp [TmdbService.format_movie_data, Json.get, hov, hpo, formatOverview, Json.toBool,
        hs, hl, pyLen, Except.bind, Bind.bind, Pure.pure, Except.pure]
    · refine ⟨⟨(fs.lookup "id").getD .null, (fs.lookup "title").getD (.str "Unknown Title"),
        .str s, pu,
        extractReleaseYear ((fs.lookup "release_date").getD (.str "")),
        (fs.lookup "vote_average").getD (.num 0), (fs.lookup "vote_count").getD (.num 0)⟩,
        ?_, by simp [hs, hl]⟩
      simp [TmdbService.format_movie_data, Json.get, hov, hpo, formatOverview, Json.toBool,
        hs, hl, pyLen, Except.bind, Bind.bind, Pure.pure, Except.pure]

/-- Witness for `c5_amended`, at the non-empty short overview `"short"`. -/
theorem c5_amended_witness :
    ∃ fm : FormattedMovie,
      (TmdbService.format_movie_data (TmdbService.init (some "k"))
          (.obj [("overview", .str "short")]) (Transport.mk0 [])).1 = .ok fm ∧
      fm.overview = (if ("short" : String) = "" then Json.str "No overview available"
                     else if ("short" : String).length > 200 then
                       Json.str (pyTake "short" 200 ++ "...")
                     else Json.str "short") :=
  c5_amended "short" [("overview", .str "short")] (TmdbService.init (some "k"))
    (Transport.mk0 []) rfl

/-- Claim C6, counterexample: the configuration is not fetched at most once
across image-URL resolutions.  With a failing configuration endpoint, the
first resolution fetches (call 1), stores `None` in the cache — which is
falsy — and the second resolution fetches again (call 2). -/
theorem c6_counterexample :
    ((TmdbService.init (some "k")).get_movie_poster_url (.str "/x.jpg") "w500"
        (Transport.mk0 [.resp ⟨500, .empty⟩, .resp ⟨500, .empty⟩])).2.2.calls = 1 ∧
    (((TmdbService.init (some "k")).get_movie_poster_url (.str "/x.jpg") "w500"
        (Transport.mk0 [.resp ⟨500, .empty⟩, .resp ⟨500, .empty⟩])).2.1.get_movie_poster_url
          (.str "/x.jpg") "w500"
          ((TmdbService.init (some "k")).get_movie_poster_url (.str "/x.jpg") "w500"
            (Transport.mk0 [.resp ⟨500, .empty⟩, .resp ⟨500, .empty⟩])).2.2).2.2.calls = 2 := by
  exact ⟨rfl, rfl⟩

/-- Claim C6, amended: once a configuration fetch has succeeded (the cache
slot holds a truthy configuration), every further image-URL resolution makes
no request and leaves the instance unchanged; on a cache miss, a hit with
poster path `p` and a 200 configuration response whose `images.base_url` is
`b` resolves to `b ++ 'w500' ++ p` and stores the configuration in the cache;
and when the configuration fetch fails, the hit's image reference degrades to
null while the search itself still returns Success.  (After a *failed* fetch
the cache stays falsy and the next resolution fetches again, as the
counterexample shows.) -/
theorem c6_amended :
    (∀ (svc : TmdbService) (p : Json) (size : String) (tr : Transport),
        configTruthy svc.config_cache = true →
        (svc.get_movie_poster_url p size tr).2 = (svc, tr)) ∧
    (∀ (k p b : String) (cache : Option Json) (cfs ifs : List (String × Json))
        (rest : List TransportOutcome) (n : Nat) (lg : List (List (String × Json))),
        k ≠ "" → p ≠ "" → b ≠ "" →
        configTruthy cache = false →
        cfs.lookup "images" = some (.obj ifs) →
        ifs.lookup "base_url" = some (.str b) →
        TmdbService.get_movie_poster_url ⟨some k, cache⟩ (.str p) "w500"
            ⟨.resp ⟨200, .json (.obj cfs)⟩ :: rest, n, lg⟩ =
          (some (b ++ "w500" ++ p), ⟨some k, some (.obj cfs)⟩,
           ⟨rest, n + 1, lg ++ [[("api_key", .str k)]]⟩)) ∧
    (∀ (k q p : String) (page : Int) (rest : List TransportOutcome) (n : Nat)
        (lg : List (List (String × Json))) (r2 : HttpResponse),
        k ≠ "" → pyStrip q ≠ "" → p ≠ "" → r2.status ≠ 200 →
        (TmdbService.search_movies ⟨some k, none⟩ (some q) page
            ⟨.resp ⟨200, .json (.obj [("results", .arr [.obj [("poster_path", .str p)]])])⟩ ::
              .resp r2 :: rest, n, lg⟩).1 =
          .success ⟨[⟨.null, .str "Unknown Title", .str "No overview available", none,
                      "Unknown", .num 0, .num 0⟩], .num 1, .num 0, .num 0⟩) := by
  refine ⟨?_, ?_, ?_⟩
  · intro svc p size tr hc
    by_cases hp : p.toBool
    · simp [TmdbService.get_movie_poster_url, hc, hp]
      split <;> rfl
    · simp [TmdbService.get_movie_poster_url, hp]
  · intro k p b cache cfs ifs rest n lg hk hp hb hcache himg hbase
    cases cfs with
    | nil => simp at himg
    | cons c0 ct =>
      have hct : configTruthy (some (Json.obj (c0 :: ct))) = true := by
        simp [configTruthy, Json.toBool]
      simp [TmdbService.get_movie_poster_url, Json.toBool, hp, hcache, hct,
        TmdbService.get_configuration, pyTruthyStr_of_ne k hk, Transport.request,
        HttpResponse.json, Json.get, himg, hbase, Json.pyStr, hb,
        Except.bind, Bind.bind, Pure.pure, Except.pure]
  · intro k q p page rest n lg r2 hk hq hp h200
    have hq0 : q ≠ "" := fun h => hq (by rw [h]; rfl)
    simp [TmdbService.search_movies, pyTruthyStr_of_ne k hk, pyTruthyStr_of_ne q hq0, hq,
      Transport.request, HttpResponse.json, Json.get, TmdbService.formatMovies,
      TmdbService.format_movie_data, TmdbService.get_movie_poster_url, Json.toBool, hp,
      configTruthy, TmdbService.get_configuration, h200, extractReleaseYear,
      formatOverview, pyLen, List.lookup, Except.bind, Bind.bind, Pure.pure, Except.pure]

/-- Witness for `c6_amended`: the concrete resolution of the scenario in the
spec — poster path `"/x.jpg"`, configured base URL `"https://img/"` — to
`"https://img/w500/x.jpg"`. -/
theorem c6_amended_witness :
    TmdbService.get_movie_poster_url ⟨some "k", none⟩ (.str "/x.jpg") "w500"
        ⟨[.resp ⟨200, .json (.obj [("images", .obj [("base_url", .str "https://img/")])])⟩], 0, []⟩ =
      (some "https://img/w500/x.jpg",
       ⟨some "k", some (.obj [("images", .obj [("base_url", .str "https://img/")])])⟩,
       ⟨[], 1, [[("api_key", .str "k")]]⟩) :=
  c6_amended.2.1 "k" "/x.jpg" "https://img/" none
    [("images", .obj [("base_url", .str "https://img/")])] [("base_url", .str "https://img/")]
    [] 0 [] (by decide) (by decide) (by decide) rfl rfl rfl

/-- Claim C7, code evaluation at the failing input: on HTTP 200 with body
`{"choices": []}` the call returns Failure `'Unexpected error: list index out
of range'` — the placeholder branch handles the empty list, but the
`finish_reason` entry then evaluates `data.get('choices', [the-empty-dict])[0]`,
and `[0]` on the present-but-empty list raises `IndexError`, caught by the
catch-all clause.  With `choices` absent the call does return Success with
the placeholder, and with a well-formed first choice it returns Success with
that choice's message content. -/
theorem c7_code_evaluation :
    (OpenAIService.chat_completion_with_history ⟨some "k"⟩
        [.obj [("role", .str "user"), ("content", .str "hi")]] "gpt-3.5-turbo" 1 none
        (Transport.mk0 [.resp ⟨200, .json (.obj [("choices", .arr [])])⟩])).1 =
      .failure "Unexpected error: list index out of range" ∧
    (OpenAIService.chat_completion_with_history ⟨some "k"⟩
        [.obj [("role", .str "user"), ("content", .str "hi")]] "gpt-3.5-turbo" 1 none
        (Transport.mk0 [.resp ⟨200, .json (.obj [])⟩])).1 =
      .success ⟨.str "No response generated", .str "gpt-3.5-turbo", .obj [], .str "unknown"⟩ ∧
    (OpenAIService.chat_completion_with_history ⟨some "k"⟩
        [.obj [("role", .str "user"), ("content", .str "hi")]] "gpt-3.5-turbo" 1 none
        (Transport.mk0 [.resp ⟨200, .json (.obj
            [("choices", .arr [.obj [("message", .obj [("content", .str "hello")]),
                                     ("finish_reason", .str "stop")]]),
             ("model", .str "gpt-3.5-turbo-0125"),
             ("usage", .obj [("total_tokens", .num 5)])])⟩])).1 =
      .success ⟨.str "hello", .str "gpt-3.5-turbo-0125", .obj [("total_tokens", .num 5)],
                .str "stop"⟩ := by
  exact ⟨rfl, rfl, rfl⟩

/-- Claim C8: with a non-empty credential and an empty messages list,
`chat_completion_with_history` fails with the conversation-history message
(matching the claimed text up to the capitalized first letter) and leaves the
transport untouched — zero network calls. -/
theorem c8_empty_history (k : String) (hk : k ≠ "") (model : String) (temp : Rat)
    (mt : Option Int) (tr : Transport) :
    OpenAIService.chat_completion_with_history ⟨some k⟩ [] model temp mt tr =
      (.failure "Conversation history cannot be empty", tr) ∧
    pyLower "Conversation history cannot be empty" =
      "conversation history cannot be empty" := by
  refine ⟨?_, by decide⟩
  simp [OpenAIService.chat_completion_with_history, pyTruthyStr_of_ne k hk]

/-- Witness for `c8_empty_history`, at the concrete credential `"k"`. -/
theorem c8_empty_history_witness :
    OpenAIService.chat_completion_with_history ⟨some "k"⟩ [] "gpt-3.5-turbo" 1 none
        (Transport.mk0 []) =
      (.failure "Conversation history cannot be empty", Transport.mk0 []) ∧
    pyLower "Conversation history cannot be empty" =
      "conversation history cannot be empty" :=
  c8_empty_history "k" (by decide) "gpt-3.5-turbo" 1 none (Transport.mk0 [])

/-- Claim C9: no exception escapes the component boundary.  The clause chains
of `validate_tmdb_api_key` and of the request wrappers catch every modelled
exception (each derives from `Exception`, the final clause), so the
propagation fallback is unreachable; consequently `validate_tmdb_api_key`
always returns one of the three classifications, and each request wrapper
always returns a tagged Failure/Success value, for every input and every
transport outcome. -/
theorem c9_no_exception_escapes :
    (∀ e : PyExc, (runClauses validateClauses e).isSome = true ∧
        (runClauses requestExcClauses e).isSome = true ∧ PyExc.isException e = true) ∧
    (∀ (k : Option String) (tr : Transport),
        (validate_tmdb_api_key k tr).1 = TMDB_API_KEY_VALID ∨
        (validate_tmdb_api_key k tr).1 = TMDB_API_KEY_INVALID ∨
        (validate_tmdb_api_key k tr).1 = TMDB_API_KEY_ERROR) ∧
    (∀ (svc : TmdbService) (q : Option String) (page : Int) (tr : Transport),
        (∃ m, (TmdbService.search_movies svc q page tr).1 = .failure m) ∨
        (∃ p, (TmdbService.search_movies svc q page tr).1 = .success p)) ∧
    (∀ (svc : OpenAIService) (hist : List Json) (model : String) (temp : Rat)
        (mt : Option Int) (tr : Transport),
        (∃ m, (OpenAIService.chat_completion_with_history svc hist model temp mt tr).1 =
            .failure m) ∨
        (∃ s, (OpenAIService.chat_completion_with_history svc hist model temp mt tr).1 =
            .success s)) := by
  refine ⟨?_, ?_, ?_, ?_⟩
  · intro e
    refine ⟨?_, ?_, ?_⟩ <;> cases e <;> rfl
  · intro k tr
    rcases tr with ⟨pending, n, lg⟩
    cases hpt : pyTruthyStr k
    · simp [validate_tmdb_api_key, hpt, TMDB_API_KEY_VALID, TMDB_API_KEY_INVALID,
        TMDB_API_KEY_ERROR]
    · cases pending with
      | nil =>
        simp [validate_tmdb_api_key, hpt, Transport.request, runClauses_validateClauses_getD,
          TMDB_API_KEY_VALID, TMDB_API_KEY_INVALID, TMDB_API_KEY_ERROR]
      | cons o rest =>
        cases o with
        | exc e =>
          simp [validate_tmdb_api_key, hpt, Transport.request,
            runClauses_validateClauses_getD, TMDB_API_KEY_VALID, TMDB_API_KEY_INVALID,
            TMDB_API_KEY_ERROR]
        | resp r =>
          rcases r with ⟨st, body⟩
          by_cases h200 : st = 200
          · cases body <;>
              simp [validate_tmdb_api_key, hpt, Transport.request, h200,
                HttpResponse.json, PyExc.isValueError, TMDB_API_KEY_VALID,
                TMDB_API_KEY_INVALID, TMDB_API_KEY_ERROR]
          · by_cases h401 : st = 401 <;>
              simp [validate_tmdb_api_key, hpt, Transport.request, h200, h401,
                TMDB_API_KEY_VALID, TMDB_API_KEY_INVALID, TMDB_API_KEY_ERROR]
  · intro svc q page tr
    cases h : (TmdbService.search_movies svc q page tr).1 with
    | failure m => exact Or.inl ⟨m, rfl⟩
    | success p => exact Or.inr ⟨p, rfl⟩
  · intro svc hist model temp mt tr
    cases h : (OpenAIService.chat_completion_with_history svc hist model temp mt tr).1 with
    | failure m => exact Or.inl ⟨m, rfl⟩
    | success s => exact Or.inr ⟨s, rfl⟩

/-- Claim C10: the request payload of both chat-completion functions contains
the `max_tokens` field exactly when the `max_tokens` argument is truthy —
`0` is omitted exactly as `None` is, and when the field is present it carries
the argument's value (never `0` or null).  The last two conjuncts tie the
payload to the actual request: for valid inputs each function sends exactly
one request whose payload is `chatPayload` of its arguments. -/
theorem c10_max_tokens :
    (∀ (model : String) (msgs : Json) (temp : Rat) (mt : Option Int),
        ((chatPayload model msgs temp mt).lookup "max_tokens").isSome = pyTruthyInt mt) ∧
    (∀ (model : String) (msgs : Json) (temp : Rat) (n : Int), n ≠ 0 →
        (chatPayload model msgs temp (some n)).lookup "max_tokens" =
          some (.num (n : Rat))) ∧
    (∀ (model : String) (msgs : Json) (temp : Rat),
        chatPayload model msgs temp (some 0) = chatPayload model msgs temp none) ∧
    (∀ (k model : String) (hist : List Json) (temp : Rat) (mt : Option Int)
        (tr : Transport), k ≠ "" → hist ≠ [] →
        (OpenAIService.chat_completion_with_history ⟨some k⟩ hist model temp mt tr).2.sent =
          tr.sent ++ [chatPayload model (.arr hist) temp mt]) ∧
    (∀ (k msg : String) (sysm : Option String) (model : String) (temp : Rat)
        (mt : Option Int) (tr : Transport), k ≠ "" → pyStrip msg ≠ "" →
        ∃ ms : Json,
          (OpenAIService.chat_completion ⟨some k⟩ (some msg) sysm model temp mt tr).2.sent =
            tr.sent ++ [chatPayload model ms temp mt]) := by
  refine ⟨?_, ?_, ?_, ?_, ?_⟩
  · intro model msgs temp mt
    cases mt with
    | none => simp [chatPayload, pyTruthyInt, List.lookup]
    | some n =>
      by_cases hn : n = 0
      · simp [chatPayload, pyTruthyInt, List.lookup, hn]
      · simp [chatPayload, pyTruthyInt, List.lookup, hn]
  · intro model msgs temp n hn
    simp [chatPayload, pyTruthyInt, List.lookup, hn]
  · intro model msgs temp
    simp [chatPayload, pyTruthyInt]
  · intro k model hist temp mt tr hk hh
    cases hist with
    | nil => exact absurd rfl hh
    | cons a t =>
      rcases tr with ⟨pending, n, lg⟩
      cases pending <;>
        simp [OpenAIService.chat_completion_with_history, pyTruthyStr_of_ne k hk,
          Transport.request]
  · intro k msg sysm model temp mt tr hk hmsg
    have hm0 : msg ≠ "" := fun h => hmsg (by rw [h]; rfl)
    refine ⟨.arr ((if pyTruthyStr sysm then
        [Json.obj [("role", .str "system"), ("content", .str (sysm.getD ""))]]
      else []) ++
      [Json.obj [("role", .str "user"), ("content", .str (pyStrip msg))]]), ?_⟩
    rcases tr with ⟨pending, n, lg⟩
    cases pending <;>
      simp [OpenAIService.chat_completion, pyTruthyStr_of_ne k hk,
        pyTruthyStr_of_ne msg hm0, hmsg, Transport.request]

/-- Witness for `c10_max_tokens`: `max_tokens = 0` builds the same payload as
`max_tokens = None`, and `max_tokens = 16` sends the field with value 16. -/
theorem c10_max_tokens_witness :
    chatPayload "gpt-3.5-turbo" (.arr []) 1 (some 0) =
      chatPayload "gpt-3.5-turbo" (.arr []) 1 none ∧
    (chatPayload "gpt-3.5-turbo" (.arr []) 1 (some 16)).lookup "max_tokens" =
      some (.num ((16 : Int) : Rat)) :=
  ⟨c10_max_tokens.2.2.1 "gpt-3.5-turbo" (.arr []) 1,
   c10_max_tokens.2.1 "gpt-3.5-turbo" (.arr []) 1 16 (by decide)⟩
